import Mathlib

/-!
Verification of the transactional query-execution helper in
`src/app/use_mysql.py`.

The Python script wraps a MySQL driver.  We embed the helper functions
(`get_connection`, `execute_query`, `fetch_query`, `fetch_query_as_dict`,
`transaction_example`, `insert_sample_data`, `create_example_tables`,
`create_schema_if_not_exists`) shallowly: the driver-side database is an
explicit state, a connection carries the last committed snapshot and the
current working snapshot, and each Python call becomes a pure function on
that state.  Exceptions become explicit `Option`/`Except` results.
-/

namespace UseMysql

/-- Error raised by the driver while executing a statement
(`mysql.connector.Error` in the source): constraint violations, bad SQL,
or any other server-side failure, carrying a diagnostic. -/
inductive DriverError where
  | duplicateKey
  | fkViolation
  | badSql (msg : String)
  | other (msg : String)
deriving DecidableEq, Repr

/-- A Python exception that can cross one of the helper functions:
a driver error, a TypeError (e.g. subscripting the None returned by
fetchone when no row matched), a connection-establishment error, or an
arbitrary caller exception that is not a driver error. -/
inductive PyError where
  | driver (e : DriverError)
  | typeErr
  | connError (msg : String)
  | caller (msg : String)
deriving DecidableEq, Repr

/-- Caller-misuse error of the spec (nested transaction start). -/
inductive StateError where
  | nestedTransaction
deriving DecidableEq, Repr

/-- An opaque scalar bind parameter or column value: string, number or
null (dates are strings at this level). -/
inductive Value where
  | intV (i : Int)
  | strV (s : String)
  | nullV
deriving DecidableEq, Repr

/-- An ordered sequence of positional bind parameters. -/
abbrev Params := List Value

/-- One live session, generic over the database state `DB`:
`committed` is the snapshot the server has durably accepted, `working`
is the session's current view including uncommitted writes,
`inTransaction` records an explicitly started transaction, and
`openCursors` counts cursors opened on the connection and not yet
closed. -/
structure Conn (DB : Type) where
  committed : DB
  working : DB
  inTransaction : Bool
  openCursors : Nat
deriving DecidableEq, Repr

/-- Effect of `connection.commit()`: publish the working state and end
any explicit transaction. -/
def commitConn {DB : Type} (c : Conn DB) : Conn DB :=
  { c with committed := c.working, inTransaction := false }

/-- Effect of `connection.rollback()`: discard uncommitted writes and
end any explicit transaction. -/
def rollbackConn {DB : Type} (c : Conn DB) : Conn DB :=
  { c with working := c.committed, inTransaction := false }

/-- Effect of `connection.cursor()`: one more open cursor. -/
def openCursor {DB : Type} (c : Conn DB) : Conn DB :=
  { c with openCursors := c.openCursors + 1 }

/-- Effect of `cursor.close()` in the `finally` blocks. -/
def closeCursor {DB : Type} (c : Conn DB) : Conn DB :=
  { c with openCursors := c.openCursors - 1 }

/-- Driver-level outcome of executing a mutating statement on a working
state: success with the new state and the affected-row count, or a
driver error together with the (possibly partially modified) working
state it leaves behind. -/
inductive ExecOutcome (DB : Type) where
  | ok (db : DB) (rowcount : Nat)
  | err (e : DriverError) (dbAfter : DB)
deriving DecidableEq, Repr

/-- A mutating statement as the driver sees it: bind parameters applied
to the working state. -/
abbrev Stmt (DB : Type) := Params → DB → ExecOutcome DB

/-- A returning statement: bind parameters applied to the working state,
yielding either the complete list of result rows or a driver error. -/
abbrev FetchStmt (DB Row : Type) := Params → DB → Except DriverError (List Row)

/-- A dictionary-shaped result row (cursor(dictionary=True)). -/
abbrev DictRow := List (String × Value)

/-- Python `params or ()`: None and the empty tuple are falsy and give
the empty tuple; any non-empty tuple is returned unchanged. -/
def paramsOr (p : Option Params) : Params :=
  match p with
  | none => []
  | some ps => if ps.isEmpty then [] else ps

/-- Result of a call to `execute_query`: the connection state after the
call, the Python return value (the function is annotated `-> None` and
has no return statement, so it is always `none`), the affected-row
count printed on the success path, and the exception re-raised on the
failure path. -/
structure ExecuteResult (DB : Type) where
  conn : Conn DB
  returned : Option Nat
  reported : Option Nat
  raised : Option DriverError
deriving DecidableEq, Repr

/-- Embedding of `execute_query(connection, query, params)` from the source: open a
cursor, execute with `params or ()`, commit and print the rowcount on
success; on a driver error roll back and re-raise; close the cursor in
`finally` on both paths. -/
def execute_query {DB : Type} (stmt : Stmt DB) (params : Option Params)
    (conn : Conn DB) : ExecuteResult DB :=
  let c := openCursor conn
  match stmt (paramsOr params) c.working with
  | .ok db n =>
      let c := commitConn { c with working := db }
      { conn := closeCursor c, returned := none, reported := some n, raised := none }
  | .err e dbAfter =>
      let c := rollbackConn { c with working := dbAfter }
      { conn := closeCursor c, returned := none, reported := none, raised := some e }

/-- Result of a call to `fetch_query` / `fetch_query_as_dict`: the
connection state after the call, the returned row list (fully
materialized by `fetchall`) and the exception re-raised on failure. -/
structure FetchResult (DB Row : Type) where
  conn : Conn DB
  returned : Option (List Row)
  raised : Option DriverError
deriving DecidableEq, Repr

/-- Embedding of `fetch_query(connection, query, params)` from the source: open a
cursor, execute with `params or ()`, materialize all rows with
`fetchall` and return them; on a driver error re-raise; close the
cursor in `finally` on both paths.  No commit or rollback is issued. -/
def fetch_query {DB Row : Type} (stmt : FetchStmt DB Row) (params : Option Params)
    (conn : Conn DB) : FetchResult DB Row :=
  let c := openCursor conn
  match stmt (paramsOr params) c.working with
  | .ok rows => { conn := closeCursor c, returned := some rows, raised := none }
  | .error e => { conn := closeCursor c, returned := none, raised := some e }

/-- Embedding of `fetch_query_as_dict(connection, query, params)` from the source:
identical control flow to `fetch_query` but over a dictionary cursor,
so rows are name-to-value mappings. -/
def fetch_query_as_dict {DB : Type} (stmt : FetchStmt DB DictRow) (params : Option Params)
    (conn : Conn DB) : FetchResult DB DictRow :=
  let c := openCursor conn
  match stmt (paramsOr params) c.working with
  | .ok rows => { conn := closeCursor c, returned := some rows, raised := none }
  | .error e => { conn := closeCursor c, returned := none, raised := some e }

/-- Result of running a `with get_connection(...) as conn:` block:
whether a session was opened, whether the `finally` clause closed it,
the final connection state when one was opened, and the exception that
propagated out of the block, if any. -/
structure ScopeResult (DB : Type) where
  sessionOpened : Bool
  sessionClosed : Bool
  conn : Option (Conn DB)
  raised : Option PyError
deriving Repr

/-- Embedding of `get_connection(database)` from the source, as a scope runner:
`connect` is the outcome of `mysql.connector.connect(**config)` and
`body` is the with-block.  On connect failure the error is printed and
re-raised and no session exists to release.  Otherwise the body runs;
whether it returns normally or raises (a driver error is printed and
re-raised, any other exception skips the `except Error` clause), the
`finally` clause closes the still-connected session. -/
def get_connection {DB : Type} (connect : Except String (Conn DB))
    (body : Conn DB → Conn DB × Option PyError) : ScopeResult DB :=
  match connect with
  | .error msg =>
      { sessionOpened := false, sessionClosed := false, conn := none,
        raised := some (.connError msg) }
  | .ok c0 =>
      let r := body c0
      { sessionOpened := true, sessionClosed := true, conn := some r.1, raised := r.2 }

/-- Modelled from the spec: the driver's `connection.start_transaction()`
called by `transaction_example`.  The repository delegates transaction
start to the external driver, which is not part of the source tree; per
the spec, starting a transaction while one is already active on the
same connection fails fast with a `StateError` before issuing any
statement, and otherwise marks the connection as in-transaction. -/
def start_transaction {DB : Type} (c : Conn DB) : Except StateError (Conn DB) :=
  if c.inTransaction then .error .nestedTransaction
  else .ok { c with inTransaction := true }

/-- A row of the demo `orders` table as inserted by the script
(DECIMAL amounts are held in cents). -/
structure OrderRow where
  customer_id : Int
  product_id : Int
  quantity : Int
  total_cents : Int
  status : String
deriving DecidableEq, Repr

/-- Concrete state of the demo database used by `transaction_example`:
the `products` table as (id, stock) pairs (the other columns play no
role in the transaction), the `customers` table as its ids (referenced
by the orders foreign key), and the `orders` table. -/
structure ExampleDB where
  products : List (Int × Int)
  customers : List Int
  orders : List OrderRow
deriving DecidableEq, Repr

/-- The SELECT stock FROM products WHERE id = pid of the transaction
block, read through `fetchone`: the first matching row's stock, or
none when no row matches. -/
def lookupStock (db : ExampleDB) (pid : Int) : Option Int :=
  (db.products.find? (fun p => p.1 == pid)).map (fun p => p.2)

/-- The UPDATE products SET stock = stock - 1 WHERE id = pid of the
transaction block: every matching row is decremented, and the driver
reports the number of affected rows. -/
def updateDecStock (pid : Int) (db : ExampleDB) : ExampleDB × Nat :=
  ({ db with products := db.products.map (fun p => if p.1 == pid then (p.1, p.2 - 1) else p) },
    (db.products.filter (fun p => p.1 == pid)).length)

/-- The INSERT INTO orders of the transaction block: appends the row;
the foreign keys declared in `create_example_tables` make the insert
fail with a driver error when the referenced customer or product id is
absent. -/
def insertOrder (row : OrderRow) (db : ExampleDB) : ExecOutcome ExampleDB :=
  if db.customers.contains row.customer_id then
    if (db.products.map (fun p => p.1)).contains row.product_id then
      .ok { db with orders := db.orders ++ [row] } 1
    else .err .fkViolation db
  else .err .fkViolation db

/-- The stock-decrement UPDATE as an `execute_query` statement with one
positional parameter, the product id; any other parameter shape is
rejected by the driver. -/
def stmtUpdateDecStock : Stmt ExampleDB := fun ps db =>
  match ps with
  | [Value.intV pid] =>
      let r := updateDecStock pid db
      .ok r.1 r.2
  | _ => .err (.badSql "parameter count mismatch") db

/-- Number of rows whose content differs positionally between two
versions of the products table: what "rows actually changed" means for
an UPDATE, which neither inserts nor deletes rows. -/
def changedRowCount (bef aft : List (Int × Int)) : Nat :=
  (bef.zip aft).countP (fun pr => pr.1 != pr.2)

/-- The message `transaction_example` prints at its end: success,
insufficient-stock rollback, or error rollback carrying the caught
driver error. -/
inductive TxMsg where
  | completed
  | insufficientStock
  | errorRolledBack (e : DriverError)
deriving DecidableEq, Repr

/-- Result of a `transaction_example` run on an open connection: the
final connection state, the message printed, and the exception that
propagated out of the function, if any. -/
structure TxResult where
  conn : Conn ExampleDB
  msg : Option TxMsg
  raised : Option PyError
deriving DecidableEq, Repr

/-- The fixed order row inserted by `transaction_example`: customer 1,
product 1, quantity 1, 999.99, status pending. -/
def theOrder : OrderRow :=
  { customer_id := 1, product_id := 1, quantity := 1, total_cents := 99999, status := "pending" }

/-- Embedding of `transaction_example(database)` from the source, on an open
connection: start a transaction; read the stock of product 1; if at
least 1, decrement it, insert the order and commit; otherwise roll
back.  A driver error anywhere in the block — including a rejected
nested transaction start — is caught by `except Error`, rolled back and
printed, not re-raised.  A missing product row makes `fetchone()`
return None whose subscript raises an uncaught TypeError.  The cursor
is closed in `finally` on every path. -/
def transaction_example (conn : Conn ExampleDB) : TxResult :=
  let c := openCursor conn
  match start_transaction c with
  | .error _ =>
      { conn := closeCursor (rollbackConn c),
        msg := some (.errorRolledBack (.other "Transaction already in progress")),
        raised := none }
  | .ok c1 =>
      match lookupStock c1.working 1 with
      | none =>
          { conn := closeCursor c1, msg := none, raised := some .typeErr }
      | some stock =>
          if 1 ≤ stock then
            let db1 := (updateDecStock 1 c1.working).1
            let c2 := { c1 with working := db1 }
            match insertOrder theOrder c2.working with
            | .ok db2 _ =>
                let c3 := commitConn { c2 with working := db2 }
                { conn := closeCursor c3, msg := some .completed, raised := none }
            | .err e dbAfter =>
                let c3 := rollbackConn { c2 with working := dbAfter }
                { conn := closeCursor c3, msg := some (.errorRolledBack e), raised := none }
          else
            { conn := closeCursor (rollbackConn c1), msg := some .insufficientStock,
              raised := none }

/-- A schema state: the list of database-object (database or table)
names that exist, in creation order. -/
abbrev Schema := List String

/-- Append a name to a schema unless it is already present. -/
def addIfAbsent (s : Schema) (n : String) : Schema :=
  if s.contains n then s else s ++ [n]

/-- Modelled from the spec: the MySQL-side semantics of the
CREATE TABLE IF NOT EXISTS / CREATE DATABASE IF NOT EXISTS statement
texts issued by `create_example_tables` and
`create_schema_if_not_exists` (the server executing them is outside the
source tree).  Creating an existing object is a no-op, not an error;
creating an absent one adds it; either way the statement succeeds with
rowcount 0. -/
def createIfNotExists (name : String) : Stmt Schema :=
  fun _ s => .ok (addIfAbsent s name) 0

/-- Embedding of `create_example_tables(database)` from the source: three
`execute_query` calls issuing CREATE TABLE IF NOT EXISTS for products,
customers and orders; an exception from any call propagates and skips
the rest. -/
def create_example_tables (c : Conn Schema) : ExecuteResult Schema :=
  let r1 := execute_query (createIfNotExists "products") none c
  match r1.raised with
  | some _ => r1
  | none =>
      let r2 := execute_query (createIfNotExists "customers") none r1.conn
      match r2.raised with
      | some _ => r2
      | none => execute_query (createIfNotExists "orders") none r2.conn

/-- Embedding of `create_schema_if_not_exists(schema_name)` from the source: one
`execute_query` issuing CREATE DATABASE IF NOT EXISTS. -/
def create_schema_if_not_exists (name : String) (c : Conn Schema) : ExecuteResult Schema :=
  execute_query (createIfNotExists name) none c

/-- Outcome of one executemany batch in `insert_sample_data`: committed
with the driver rowcount, or rolled back after the printed driver
error. -/
inductive BatchOutcome where
  | committedB (n : Nat)
  | rolledBackB (e : DriverError)
deriving DecidableEq, Repr

/-- A bulk executemany call as the driver sees it: the batch data is
fixed in the source, so the batch is a function of the working state
only. -/
abbrev BatchStmt (DB : Type) := DB → ExecOutcome DB

/-- One batch block of `insert_sample_data`: open a cursor, executemany,
commit and report the rowcount on success; on a driver error print a
note and roll back — without re-raising; close the cursor in
`finally`. -/
def runBatch {DB : Type} (b : BatchStmt DB) (c : Conn DB) : Conn DB × BatchOutcome :=
  let c1 := openCursor c
  match b c1.working with
  | .ok db n => (closeCursor (commitConn { c1 with working := db }), .committedB n)
  | .err e dbAfter => (closeCursor (rollbackConn { c1 with working := dbAfter }), .rolledBackB e)

/-- Result of `insert_sample_data`: the final connection, the per-batch
outcomes in order (products, customers, orders) and the exception that
propagated out of the function (always none: every batch error is
swallowed inside). -/
structure InsertSampleResult (DB : Type) where
  conn : Conn DB
  outcomes : List BatchOutcome
  raised : Option PyError
deriving Repr

/-- Embedding of `insert_sample_data(database)` from the source: three consecutive
batch blocks (products, customers, orders); each failing batch is
printed as a note and rolled back, never re-raised, and the next batch
still runs. -/
def insert_sample_data {DB : Type} (b1 b2 b3 : BatchStmt DB) (c : Conn DB) :
    InsertSampleResult DB :=
  let r1 := runBatch b1 c
  let r2 := runBatch b2 r1.1
  let r3 := runBatch b3 r2.1
  { conn := r3.1, outcomes := [r1.2, r2.2, r3.2], raised := none }

end UseMysql

namespace UseMysql

/-- Auxiliary: decrementing the stock of the matching rows changes
exactly the matching rows, so the positional row difference equals the
number of matches the driver reports. -/
theorem changedRowCount_map_dec (pid : Int) (ps : List (Int × Int)) :
    changedRowCount ps (ps.map (fun p => if p.1 == pid then (p.1, p.2 - 1) else p)) =
      (ps.filter (fun p => p.1 == pid)).length := by
  induction ps with
  | nil => rfl
  | cons a t ih =>
      rcases a with ⟨i, s⟩
      by_cases h : i = pid
      · subst h
        have hne : (((i, s) : Int × Int) != (i, s - 1)) = true := by
          rw [bne_iff_ne]
          intro hc
          have hs : s = s - 1 := congrArg Prod.snd hc
          omega
        simp only [changedRowCount, List.map_cons, List.zip_cons_cons, List.countP_cons,
          List.filter_cons] at *
        simp [hne]
        simp only [beq_iff_eq] at ih
        exact ih
      · simp only [changedRowCount, List.map_cons, List.zip_cons_cons, List.countP_cons,
          List.filter_cons] at *
        simp [h]
        simp only [beq_iff_eq] at ih
        exact ih

/-- C4: for every connection, statement and params, `fetch_query` and
`fetch_query_as_dict` either return the complete materialized result
set with no exception, or raise the driver error and return nothing —
never a partial list — and the cursor is closed on both paths. -/
theorem fetch_materializes_all_or_raises {DB Row : Type}
    (stmt : FetchStmt DB Row) (dstmt : FetchStmt DB DictRow)
    (params : Option Params) (conn : Conn DB) :
    ((fetch_query stmt params conn).conn.openCursors = conn.openCursors ∧
      ((∃ rows, stmt (paramsOr params) conn.working = .ok rows ∧
          (fetch_query stmt params conn).returned = some rows ∧
          (fetch_query stmt params conn).raised = none) ∨
        (∃ e, stmt (paramsOr params) conn.working = .error e ∧
          (fetch_query stmt params conn).returned = none ∧
          (fetch_query stmt params conn).raised = some e))) ∧
    ((fetch_query_as_dict dstmt params conn).conn.openCursors = conn.openCursors ∧
      ((∃ rows, dstmt (paramsOr params) conn.working = .ok rows ∧
          (fetch_query_as_dict dstmt params conn).returned = some rows ∧
          (fetch_query_as_dict dstmt params conn).raised = none) ∨
        (∃ e, dstmt (paramsOr params) conn.working = .error e ∧
          (fetch_query_as_dict dstmt params conn).returned = none ∧
          (fetch_query_as_dict dstmt params conn).raised = some e))) := by
  constructor
  · cases h : stmt (paramsOr params) conn.working with
    | ok rows =>
        refine ⟨?_, Or.inl ⟨rows, rfl, ?_, ?_⟩⟩ <;>
          simp [fetch_query, openCursor, closeCursor, h]
    | error e =>
        refine ⟨?_, Or.inr ⟨e, rfl, ?_, ?_⟩⟩ <;>
          simp [fetch_query, openCursor, closeCursor, h]
  · cases h : dstmt (paramsOr params) conn.working with
    | ok rows =>
        refine ⟨?_, Or.inl ⟨rows, rfl, ?_, ?_⟩⟩ <;>
          simp [fetch_query_as_dict, openCursor, closeCursor, h]
    | error e =>
        refine ⟨?_, Or.inr ⟨e, rfl, ?_, ?_⟩⟩ <;>
          simp [fetch_query_as_dict, openCursor, closeCursor, h]

/-- C10: omitting `params` (Python `None`) behaves identically to
passing the empty tuple: `params or ()` yields the empty binding
sequence in both cases, and `execute_query`, `fetch_query` and
`fetch_query_as_dict` produce identical results and effects. -/
theorem omitted_params_eq_empty_params {DB Row : Type}
    (stmt : Stmt DB) (fstmt : FetchStmt DB Row) (dstmt : FetchStmt DB DictRow)
    (conn : Conn DB) :
    paramsOr none = ([] : Params) ∧ paramsOr (some []) = ([] : Params) ∧
    execute_query stmt none conn = execute_query stmt (some []) conn ∧
    fetch_query fstmt none conn = fetch_query fstmt (some []) conn ∧
    fetch_query_as_dict dstmt none conn = fetch_query_as_dict dstmt (some []) conn :=
  ⟨rfl, rfl, rfl, rfl, rfl⟩

/-- C5: on every exit path from the `get_connection` scope (normal
return, statement error, or any caller exception) the session opened by
it is released by the `finally` clause, the body's failure is
re-surfaced unchanged, and the cursors opened by `execute_query` and
`fetch_query` are closed regardless of the statement outcome. -/
theorem scope_releases_session_and_closes_cursors {DB Row : Type}
    (connect : Except String (Conn DB)) (body : Conn DB → Conn DB × Option PyError)
    (stmt : Stmt DB) (fstmt : FetchStmt DB Row) (params : Option Params) (conn : Conn DB) :
    ((get_connection connect body).sessionOpened = true →
      (get_connection connect body).sessionClosed = true) ∧
    (∀ c0, connect = .ok c0 → (get_connection connect body).raised = (body c0).2) ∧
    (execute_query stmt params conn).conn.openCursors = conn.openCursors ∧
    (fetch_query fstmt params conn).conn.openCursors = conn.openCursors := by
  refine ⟨?_, ?_, ?_, ?_⟩
  · cases connect <;> simp [get_connection]
  · intro c0 h
    subst h
    simp [get_connection]
  · cases h : stmt (paramsOr params) conn.working <;>
      simp [execute_query, openCursor, closeCursor, commitConn, rollbackConn, h]
  · cases h : fstmt (paramsOr params) conn.working <;>
      simp [fetch_query, openCursor, closeCursor, h]

/-- C5 witness: a concrete scope run with a successfully opened session
and a normally returning body releases the session and re-surfaces no
failure, and a concrete execute/fetch pair leaves no cursor open. -/
theorem scope_releases_session_witness :
    (get_connection (Except.ok (⟨0, 0, false, 0⟩ : Conn Nat)) (fun c => (c, none))).sessionClosed = true ∧
    (get_connection (Except.ok (⟨0, 0, false, 0⟩ : Conn Nat)) (fun c => (c, none))).raised = none ∧
    (execute_query (fun _ db => ExecOutcome.ok db 0) none
      (⟨0, 0, false, 0⟩ : Conn Nat)).conn.openCursors = 0 ∧
    (fetch_query (fun _ _ => Except.ok ([] : List Nat)) none
      (⟨0, 0, false, 0⟩ : Conn Nat)).conn.openCursors = 0 := by
  have h := scope_releases_session_and_closes_cursors
    (Except.ok (⟨0, 0, false, 0⟩ : Conn Nat)) (fun c => (c, none))
    (fun _ db => ExecOutcome.ok db 0) (fun _ _ => Except.ok ([] : List Nat)) none
    (⟨0, 0, false, 0⟩ : Conn Nat)
  refine ⟨h.1 rfl, ?_, h.2.2.1, h.2.2.2⟩
  exact h.2.1 _ rfl

/-- C6: starting a transaction on a connection that already has an
active transaction fails fast with a `StateError`, before any statement
is issued (`start_transaction` is modelled from the spec, as the
rejection lives in the external driver). -/
theorem nested_start_transaction_fails_fast {DB : Type} (c : Conn DB)
    (h : c.inTransaction = true) :
    start_transaction c = .error .nestedTransaction := by
  simp [start_transaction, h]

/-- C6 witness: the nested start is rejected on a concrete connection
that is already in a transaction. -/
theorem nested_start_transaction_witness :
    start_transaction (⟨0, 0, true, 0⟩ : Conn Nat) = .error .nestedTransaction :=
  nested_start_transaction_fails_fast _ rfl

/-- C3 counterexample: called inside an explicit transaction scope
(`inTransaction = true`), a successful `execute_query` still commits —
publishing the caller's uncommitted transaction and ending it — so the
caller does not control commit/rollback as the claim states. -/
theorem execute_query_commits_inside_transaction :
    ((⟨0, 0, true, 0⟩ : Conn Nat)).inTransaction = true ∧
    (execute_query (fun _ db => ExecOutcome.ok (db + 1) 1) none
      (⟨0, 0, true, 0⟩ : Conn Nat)).raised = none ∧
    (execute_query (fun _ db => ExecOutcome.ok (db + 1) 1) none
      (⟨0, 0, true, 0⟩ : Conn Nat)).conn.committed ≠ 0 ∧
    (execute_query (fun _ db => ExecOutcome.ok (db + 1) 1) none
      (⟨0, 0, true, 0⟩ : Conn Nat)).conn.inTransaction = false := by
  refine ⟨rfl, rfl, ?_, rfl⟩
  decide

/-- C3 amended: `execute_query` always commits immediately after a
successful statement — even inside an explicit transaction scope, whose
transaction it ends — and on a driver failure it rolls back any partial
effect of the statement (the working state returns to the committed
state) and re-raises the original driver error. -/
theorem execute_query_commit_or_rollback {DB : Type} (stmt : Stmt DB)
    (params : Option Params) (conn : Conn DB) :
    (∀ db n, stmt (paramsOr params) conn.working = .ok db n →
      (execute_query stmt params conn).conn.committed = db ∧
      (execute_query stmt params conn).conn.working = db ∧
      (execute_query stmt params conn).conn.inTransaction = false ∧
      (execute_query stmt params conn).raised = none) ∧
    (∀ e dbAfter, stmt (paramsOr params) conn.working = .err e dbAfter →
      (execute_query stmt params conn).conn.committed = conn.committed ∧
      (execute_query stmt params conn).conn.working = conn.committed ∧
      (execute_query stmt params conn).raised = some e) := by
  constructor
  · intro db n h
    simp [execute_query, openCursor, closeCursor, commitConn, h]
  · intro e dbAfter h
    simp [execute_query, openCursor, closeCursor, rollbackConn, h]

/-- C3 amended witness: a concrete successful statement is committed and
a concrete failing statement is rolled back with the original error
re-raised. -/
theorem execute_query_commit_or_rollback_witness :
    (execute_query (fun _ db => ExecOutcome.ok (db + 1) 1) none
      (⟨0, 0, false, 0⟩ : Conn Nat)).conn.committed = 1 ∧
    (execute_query (fun _ db => ExecOutcome.err DriverError.duplicateKey (db + 7)) none
      (⟨0, 0, false, 0⟩ : Conn Nat)).conn.working = 0 ∧
    (execute_query (fun _ db => ExecOutcome.err DriverError.duplicateKey (db + 7)) none
      (⟨0, 0, false, 0⟩ : Conn Nat)).raised = some DriverError.duplicateKey := by
  have hok := (execute_query_commit_or_rollback (fun _ db => ExecOutcome.ok (db + 1) 1) none
    (⟨0, 0, false, 0⟩ : Conn Nat)).1 1 1 rfl
  have herr := (execute_query_commit_or_rollback
    (fun _ db => ExecOutcome.err DriverError.duplicateKey (db + 7)) none
    (⟨0, 0, false, 0⟩ : Conn Nat)).2 DriverError.duplicateKey 7 rfl
  exact ⟨hok.1, herr.2.1, herr.2.2⟩

/-- C1 counterexample: on a concrete accepted (statement, params) pair —
the stock decrement of product 1 on a one-product table — exactly one
row is changed and `execute_query` prints rowcount 1, but its Python
return value is None: the affected-row count is reported, not
returned. -/
theorem execute_query_returns_none :
    (execute_query stmtUpdateDecStock (some [Value.intV 1])
      (⟨⟨[(1, 10)], [1], []⟩, ⟨[(1, 10)], [1], []⟩, false, 0⟩ : Conn ExampleDB)).reported
        = some 1 ∧
    (execute_query stmtUpdateDecStock (some [Value.intV 1])
      (⟨⟨[(1, 10)], [1], []⟩, ⟨[(1, 10)], [1], []⟩, false, 0⟩ : Conn ExampleDB)).returned
        = none ∧
    (execute_query stmtUpdateDecStock (some [Value.intV 1])
      (⟨⟨[(1, 10)], [1], []⟩, ⟨[(1, 10)], [1], []⟩, false, 0⟩ : Conn ExampleDB)).returned
        ≠ some 1 := by
  refine ⟨?_, rfl, ?_⟩ <;> decide

/-- C1 amended: `execute_query` returns None; the affected-row count it
reports (prints) equals the number of rows actually changed by the
statement — for the stock-decrement UPDATE on an arbitrary products
table, the reported count equals the positional row difference between
the table before the call and the committed table after it. -/
theorem execute_query_reports_rows_changed (db : ExampleDB) (pid : Int) :
    (execute_query stmtUpdateDecStock (some [Value.intV pid])
      (⟨db, db, false, 0⟩ : Conn ExampleDB)).returned = none ∧
    (execute_query stmtUpdateDecStock (some [Value.intV pid])
      (⟨db, db, false, 0⟩ : Conn ExampleDB)).raised = none ∧
    (execute_query stmtUpdateDecStock (some [Value.intV pid])
      (⟨db, db, false, 0⟩ : Conn ExampleDB)).reported =
      some (changedRowCount db.products
        (execute_query stmtUpdateDecStock (some [Value.intV pid])
          (⟨db, db, false, 0⟩ : Conn ExampleDB)).conn.committed.products) := by
  refine ⟨rfl, rfl, ?_⟩
  simp only [execute_query, stmtUpdateDecStock, paramsOr, openCursor, closeCursor,
    commitConn, updateDecStock]
  have h := changedRowCount_map_dec pid db.products
  simp only [beq_iff_eq] at h
  simp [h.symm]

/-- C2 counterexample: with stock 1 for product 1 and an empty customers
table, the INSERT inside the transaction block fails on its foreign
key: the block rolls back (nothing is committed) but swallows the
failure — it prints the error-rollback message and returns normally —
instead of re-surfacing the failure to the caller. -/
theorem transaction_example_swallows_failure :
    (transaction_example (⟨⟨[(1, 1)], [], []⟩, ⟨[(1, 1)], [], []⟩, false, 0⟩ :
        Conn ExampleDB)).msg = some (.errorRolledBack .fkViolation) ∧
    (transaction_example (⟨⟨[(1, 1)], [], []⟩, ⟨[(1, 1)], [], []⟩, false, 0⟩ :
        Conn ExampleDB)).raised = none ∧
    (transaction_example (⟨⟨[(1, 1)], [], []⟩, ⟨[(1, 1)], [], []⟩, false, 0⟩ :
        Conn ExampleDB)).conn.committed = ⟨[(1, 1)], [], []⟩ ∧
    (transaction_example (⟨⟨[(1, 1)], [], []⟩, ⟨[(1, 1)], [], []⟩, false, 0⟩ :
        Conn ExampleDB)).conn.working = ⟨[(1, 1)], [], []⟩ := by
  refine ⟨?_, ?_, ?_, ?_⟩ <;> decide

/-- C2 amended: on an open connection, outside a transaction, whose stock check passes, the
transaction block of `transaction_example` commits both writes when the
order insert succeeds; when a driver failure occurs between the two
writes it rolls back all of the block's writes — both the committed and
the working state end at the initial committed state — but swallows the
failure (prints it and returns normally) rather than re-surfacing it. -/
theorem transaction_example_commit_or_rollback (conn : Conn ExampleDB)
    (htx : conn.inTransaction = false)
    (s : Int) (hstock : lookupStock conn.working 1 = some s) (hs : 1 ≤ s) :
    (∀ db2 n, insertOrder theOrder (updateDecStock 1 conn.working).1 = .ok db2 n →
      (transaction_example conn).conn.committed = db2 ∧
      (transaction_example conn).conn.working = db2 ∧
      (transaction_example conn).msg = some .completed ∧
      (transaction_example conn).raised = none) ∧
    (∀ e dbAfter, insertOrder theOrder (updateDecStock 1 conn.working).1 = .err e dbAfter →
      (transaction_example conn).conn.committed = conn.committed ∧
      (transaction_example conn).conn.working = conn.committed ∧
      (transaction_example conn).msg = some (.errorRolledBack e) ∧
      (transaction_example conn).raised = none) := by
  constructor
  · intro db2 n h
    simp [transaction_example, start_transaction, openCursor, closeCursor, commitConn,
      rollbackConn, htx, hstock, hs, h]
  · intro e dbAfter h
    simp [transaction_example, start_transaction, openCursor, closeCursor, commitConn,
      rollbackConn, htx, hstock, hs, h]

/-- C2 amended witness: a concrete run with stock 5, customer 1 present
and a succeeding insert commits both writes. -/
theorem transaction_example_commit_witness :
    (transaction_example (⟨⟨[(1, 5)], [1], []⟩, ⟨[(1, 5)], [1], []⟩, false, 0⟩ :
        Conn ExampleDB)).conn.committed = ⟨[(1, 4)], [1], [theOrder]⟩ ∧
    (transaction_example (⟨⟨[(1, 5)], [1], []⟩, ⟨[(1, 5)], [1], []⟩, false, 0⟩ :
        Conn ExampleDB)).msg = some TxMsg.completed := by
  have h := (transaction_example_commit_or_rollback
      (⟨⟨[(1, 5)], [1], []⟩, ⟨[(1, 5)], [1], []⟩, false, 0⟩ : Conn ExampleDB)
      rfl 5 rfl (by decide)).1
      (⟨[(1, 4)], [1], [theOrder]⟩ : ExampleDB) 1 (by decide)
  exact ⟨h.1, h.2.2.1⟩

/-- C7: when the starting stock of product 1 is 0, the transaction block
takes the insufficient-stock branch and rolls back: no failure is
raised, the stock of product 1 is still 0 afterwards, no order row is
created, and nothing is committed. -/
theorem transaction_example_insufficient_stock (conn : Conn ExampleDB)
    (hclean : conn.working = conn.committed) (htx : conn.inTransaction = false)
    (hstock : lookupStock conn.working 1 = some 0) :
    (transaction_example conn).msg = some .insufficientStock ∧
    (transaction_example conn).raised = none ∧
    lookupStock (transaction_example conn).conn.working 1 = some 0 ∧
    (transaction_example conn).conn.working.orders = conn.working.orders ∧
    (transaction_example conn).conn.committed = conn.committed := by
  have h0 : ¬ (1 ≤ (0 : Int)) := by decide
  refine ⟨?_, ?_, ?_, ?_, ?_⟩ <;>
    simp [transaction_example, start_transaction, openCursor, closeCursor, rollbackConn,
      htx, hstock, h0, hclean ▸ hstock, hclean]

/-- C7 witness: the scenario on a concrete database with product 1 at
stock 0 and no orders. -/
theorem transaction_example_insufficient_stock_witness :
    (transaction_example (⟨⟨[(1, 0)], [1], []⟩, ⟨[(1, 0)], [1], []⟩, false, 0⟩ :
        Conn ExampleDB)).msg = some TxMsg.insufficientStock ∧
    lookupStock (transaction_example (⟨⟨[(1, 0)], [1], []⟩, ⟨[(1, 0)], [1], []⟩, false, 0⟩ :
        Conn ExampleDB)).conn.working 1 = some 0 ∧
    (transaction_example (⟨⟨[(1, 0)], [1], []⟩, ⟨[(1, 0)], [1], []⟩, false, 0⟩ :
        Conn ExampleDB)).conn.working.orders = [] := by
  have h := transaction_example_insufficient_stock
      (⟨⟨[(1, 0)], [1], []⟩, ⟨[(1, 0)], [1], []⟩, false, 0⟩ : Conn ExampleDB)
      rfl rfl rfl
  exact ⟨h.1, h.2.2.1, h.2.2.2.1⟩

/-- Auxiliary: the name just added (or already present) is contained in
the result of `addIfAbsent`. -/
theorem contains_addIfAbsent_self (s : Schema) (n : String) :
    (addIfAbsent s n).contains n = true := by
  by_cases h : s.contains n <;> simp_all [addIfAbsent]

/-- Auxiliary: `addIfAbsent` preserves membership of other names. -/
theorem contains_addIfAbsent_of_contains (s : Schema) (m n : String)
    (h : s.contains m = true) : (addIfAbsent s n).contains m = true := by
  by_cases hn : s.contains n <;> simp_all [addIfAbsent]

/-- Auxiliary: adding a name already present is the identity. -/
theorem addIfAbsent_of_contains (s : Schema) (n : String)
    (h : s.contains n = true) : addIfAbsent s n = s := by
  have hm : n ∈ s := by simpa using h
  simp [addIfAbsent, hm]

/-- Auxiliary: closed form of one CREATE ... IF NOT EXISTS call through
`execute_query`: it always succeeds, commits, and both connection
snapshots become the schema with the name added if absent. -/
theorem execute_createIfNotExists (n : String) (c : Conn Schema) :
    execute_query (createIfNotExists n) none c =
      { conn := ⟨addIfAbsent c.working n, addIfAbsent c.working n, false, c.openCursors⟩,
        returned := none, reported := some 0, raised := none } := by
  simp [execute_query, createIfNotExists, paramsOr, openCursor, closeCursor, commitConn]

/-- Auxiliary: closed form of `create_example_tables`: no exception, and
both snapshots end at the working schema with the three tables added in
order. -/
theorem create_example_tables_state (c : Conn Schema) :
    create_example_tables c =
      { conn := ⟨addIfAbsent (addIfAbsent (addIfAbsent c.working "products") "customers")
            "orders",
          addIfAbsent (addIfAbsent (addIfAbsent c.working "products") "customers") "orders",
          false, c.openCursors⟩,
        returned := none, reported := some 0, raised := none } := by
  simp [create_example_tables, execute_createIfNotExists]

/-- C8: schema creation is idempotent: for every connection state,
running `create_example_tables` a second time raises no error and
leaves the schema — committed and working snapshots — exactly as after
the first call, and likewise for `create_schema_if_not_exists` with any
database name. -/
theorem schema_creation_idempotent (c : Conn Schema) (name : String) :
    (create_example_tables c).raised = none ∧
    (create_example_tables (create_example_tables c).conn).raised = none ∧
    (create_example_tables (create_example_tables c).conn).conn.committed =
      (create_example_tables c).conn.committed ∧
    (create_example_tables (create_example_tables c).conn).conn.working =
      (create_example_tables c).conn.working ∧
    (create_schema_if_not_exists name c).raised = none ∧
    (create_schema_if_not_exists name (create_schema_if_not_exists name c).conn).raised
      = none ∧
    (create_schema_if_not_exists name (create_schema_if_not_exists name c).conn).conn.committed
      = (create_schema_if_not_exists name c).conn.committed := by
  have hp : (addIfAbsent (addIfAbsent (addIfAbsent c.working "products") "customers")
      "orders").contains "products" = true :=
    contains_addIfAbsent_of_contains _ _ _ (contains_addIfAbsent_of_contains _ _ _
      (contains_addIfAbsent_self _ _))
  have hc : (addIfAbsent (addIfAbsent (addIfAbsent c.working "products") "customers")
      "orders").contains "customers" = true :=
    contains_addIfAbsent_of_contains _ _ _ (contains_addIfAbsent_self _ _)
  have ho : (addIfAbsent (addIfAbsent (addIfAbsent c.working "products") "customers")
      "orders").contains "orders" = true :=
    contains_addIfAbsent_self _ _
  have hn : (addIfAbsent c.working name).contains name = true :=
    contains_addIfAbsent_self _ _
  refine ⟨?_, ?_, ?_, ?_, ?_, ?_, ?_⟩ <;>
    simp [create_example_tables_state, create_schema_if_not_exists,
      execute_createIfNotExists, addIfAbsent_of_contains _ _ hp,
      addIfAbsent_of_contains _ _ hc, addIfAbsent_of_contains _ _ ho,
      addIfAbsent_of_contains _ _ hn]

/-- C9: a driver error (such as a duplicate-key violation) on a batch of
`insert_sample_data` is not surfaced to the caller: the function always
returns normally with no exception and runs all three batches; and when
the first batch fails, its outcome is a rollback that restores the
committed state, with the remaining batches running on the rolled-back
connection. -/
theorem insert_sample_data_swallows_errors {DB : Type} (b1 b2 b3 : BatchStmt DB)
    (c : Conn DB) :
    (insert_sample_data b1 b2 b3 c).raised = none ∧
    (insert_sample_data b1 b2 b3 c).outcomes.length = 3 ∧
    (∀ e dbAfter, b1 c.working = .err e dbAfter →
      (runBatch b1 c).1.committed = c.committed ∧
      (runBatch b1 c).1.working = c.committed ∧
      (insert_sample_data b1 b2 b3 c).outcomes =
        [.rolledBackB e, (runBatch b2 (runBatch b1 c).1).2,
          (runBatch b3 (runBatch b2 (runBatch b1 c).1).1).2]) := by
  refine ⟨rfl, rfl, ?_⟩
  intro e dbAfter h
  refine ⟨?_, ?_, ?_⟩ <;>
    simp [insert_sample_data, runBatch, openCursor, closeCursor, rollbackConn, h]

/-- C9 witness: a concrete first batch failing with a duplicate key is
rolled back and swallowed while the second and third batches still run
and commit. -/
theorem insert_sample_data_swallows_witness :
    (insert_sample_data (fun db => ExecOutcome.err DriverError.duplicateKey db)
      (fun db => ExecOutcome.ok (db + 1) 5) (fun db => ExecOutcome.ok (db + 2) 8)
      (⟨0, 0, false, 0⟩ : Conn Nat)).raised = none ∧
    (insert_sample_data (fun db => ExecOutcome.err DriverError.duplicateKey db)
      (fun db => ExecOutcome.ok (db + 1) 5) (fun db => ExecOutcome.ok (db + 2) 8)
      (⟨0, 0, false, 0⟩ : Conn Nat)).outcomes =
        [BatchOutcome.rolledBackB DriverError.duplicateKey, BatchOutcome.committedB 5,
          BatchOutcome.committedB 8] := by
  have h := insert_sample_data_swallows_errors
    (fun db => ExecOutcome.err DriverError.duplicateKey db)
    (fun db => ExecOutcome.ok (db + 1) 5) (fun db => ExecOutcome.ok (db + 2) 8)
    (⟨0, 0, false, 0⟩ : Conn Nat)
  refine ⟨h.1, ?_⟩
  have h3 := h.2.2 DriverError.duplicateKey 0 rfl
  rw [h3.2.2]
  rfl

end UseMysql
